import Mathlib

set_option autoImplicit false

/-!
Shallow embedding of the Longhorn `manager` package facade
(`manager/manager.go`) and proofs about its volume-lifecycle operations.

The durable datastore is modelled as association lists keyed by name
(volumes) and by volume-name/replica-name pairs (replicas); `get` calls
return `none` for a missing record and `update` calls fail on a missing
record, matching the documented datastore contract.  External
collaborators that are not part of the embedded file (size parsing,
backup lookup, node registry, volume validation, the notifier) are
passed in as explicit parameters or modelled from the spec, as noted on
each definition.
-/

namespace LonghornManager

/-- Volume lifecycle states (`types.VolumeState` constants used by
`manager.go`: created, detached, healthy, degraded, fault, deleted). -/
inductive VolumeState where
  | Created
  | Detached
  | Healthy
  | Degraded
  | Fault
  | Deleted
  deriving DecidableEq, Repr

/-- Modelled from the spec: the printable name of a state, standing in for
Go rendering a `types.VolumeState` value with percent-v. -/
def stateStr : VolumeState → String
  | VolumeState.Created => "created"
  | VolumeState.Detached => "detached"
  | VolumeState.Healthy => "healthy"
  | VolumeState.Degraded => "degraded"
  | VolumeState.Fault => "fault"
  | VolumeState.Deleted => "deleted"

/-- `types.VolumeInfo`, flattened: spec fields (OwnerID, Size, FromBackup,
NumberOfReplicas, StaleReplicaTimeout, DesireState, NodeID, RecurringJobs),
status fields (Created timestamp, State) and metadata (Name). -/
structure VolumeInfo where
  Name : String
  OwnerID : String
  Size : String
  FromBackup : String
  NumberOfReplicas : Nat
  StaleReplicaTimeout : Nat
  DesireState : VolumeState
  NodeID : String
  RecurringJobs : List String
  Created : String
  State : VolumeState
  deriving DecidableEq, Repr

/-- `types.ReplicaInfo`: a replica record, keyed by volume name and replica
name; `FailedAt` empty means healthy, non-empty means faulted. -/
structure ReplicaInfo where
  Name : String
  VolumeName : String
  FailedAt : String
  deriving DecidableEq, Repr

/-- Association-list lookup, the model of a datastore `get` by key:
`none` is the distinguished not-found result. -/
def dsLookup {κ α : Type} [DecidableEq κ] : List (κ × α) → κ → Option α
  | [], _ => none
  | (k, v) :: rest, key => if k = key then some v else dsLookup rest key

/-- Association-list write, the model of a datastore record write: replaces
the first binding of the key, or appends a fresh binding. -/
def dsSet {κ α : Type} [DecidableEq κ] : List (κ × α) → κ → α → List (κ × α)
  | [], key, v => [(key, v)]
  | (k, w) :: rest, key, v =>
      if k = key then (key, v) :: rest else (k, w) :: dsSet rest key v

/-- The durable state visible to the facade: volume records keyed by name
and replica records keyed by volume name and replica name. -/
structure DataStore where
  volumes : List (String × VolumeInfo)
  replicas : List ((String × String) × ReplicaInfo)
  deriving DecidableEq, Repr

/-- Datastore well-formedness: every volume record is stored under its own
name.  The real datastore keys records by `volume.Name`, so this holds of
every reachable store. -/
def wfVolumes (l : List (String × VolumeInfo)) : Bool :=
  l.all fun kv => kv.2.Name == kv.1

/-- Replica-side well-formedness: every replica record is stored under its
own volume name and replica name. -/
def wfReplicas (l : List ((String × String) × ReplicaInfo)) : Bool :=
  l.all fun kv => kv.2.VolumeName == kv.1.1 && kv.2.Name == kv.1.2

/-- `ds.GetVolume(name)`: not-found is `none`, not an error. -/
def getVolume (ds : DataStore) (name : String) : Option VolumeInfo :=
  dsLookup ds.volumes name

/-- `ds.GetVolumeReplica(volumeName, replicaName)`. -/
def getVolumeReplica (ds : DataStore) (volumeName replicaName : String) :
    Option ReplicaInfo :=
  dsLookup ds.replicas (volumeName, replicaName)

/-- `ds.UpdateVolume(v)`: fails when no record exists under `v.Name`,
otherwise overwrites that record. -/
def updateVolume (ds : DataStore) (v : VolumeInfo) : Except String DataStore :=
  if (dsLookup ds.volumes v.Name).isSome then
    Except.ok { ds with volumes := dsSet ds.volumes v.Name v }
  else
    Except.error ("cannot update nonexistent volume " ++ v.Name)

/-- `ds.UpdateVolumeReplica(r)`: fails when no record exists under the
record's own volume-name/replica-name key, otherwise overwrites it. -/
def updateVolumeReplica (ds : DataStore) (r : ReplicaInfo) :
    Except String DataStore :=
  if (dsLookup ds.replicas (r.VolumeName, r.Name)).isSome then
    Except.ok { ds with replicas := dsSet ds.replicas (r.VolumeName, r.Name) r }
  else
    Except.error ("cannot update nonexistent replica " ++ r.Name)

/-- How a facade call ends: normal return without error, normal return with
an error, or a nil-pointer dereference (a Go runtime panic), tagged with the
expression that dereferenced nil. -/
inductive OpRes where
  | ok
  | err : String → OpRes
  | nilDeref : String → OpRes
  deriving DecidableEq, Repr

/-- Whether an operation result is a successful return. -/
def OpRes.isOk : OpRes → Bool
  | OpRes.ok => true
  | _ => false

/-- The deferred `errors.Wrap(err, msg)` in each facade method: an error is
prefixed with the operation context; success and panics pass through (the
deferred wrapper sees a nil `err` during a panic and does nothing). -/
def wrapRes (msg : String) : OpRes → OpRes
  | OpRes.ok => OpRes.ok
  | OpRes.err e => OpRes.err (msg ++ ": " ++ e)
  | OpRes.nilDeref s => OpRes.nilDeref s

/-- Store a volume record under a name (abbreviation used in statements). -/
def setVolume (ds : DataStore) (name : String) (v : VolumeInfo) : DataStore :=
  { ds with volumes := dsSet ds.volumes name v }

/-- Store a replica record under a key (abbreviation used in proofs). -/
def setReplica (ds : DataStore) (k : String × String) (r : ReplicaInfo) :
    DataStore :=
  { ds with replicas := dsSet ds.replicas k r }

/-- The record written by a successful attach: NodeID and OwnerID both set
to the requested node, DesireState set to Healthy. -/
def attachedVolume (v : VolumeInfo) (nodeID : String) : VolumeInfo :=
  { v with NodeID := nodeID, OwnerID := nodeID,
           DesireState := VolumeState.Healthy }

/-- `VolumeAttachRequest` fields used by the facade. -/
structure VolumeAttachRequest where
  Name : String
  NodeID : String
  deriving DecidableEq, Repr

/-- `VolumeManager.VolumeAttach` (manager.go lines 105 to 132): load the
volume; not-found and non-Detached states are rejected with the record
untouched; otherwise NodeID, OwnerID and DesireState are set and the record
is persisted.  Errors carry the deferred wrap prefix. -/
def VolumeAttach (ds : DataStore) (req : VolumeAttachRequest) :
    OpRes × DataStore :=
  match getVolume ds req.Name with
  | none =>
      (wrapRes "unable to attach volume"
        (OpRes.err ("cannot find volume " ++ req.Name)), ds)
  | some volume =>
      if volume.State ≠ VolumeState.Detached then
        (wrapRes "unable to attach volume"
          (OpRes.err ("invalid state to attach: " ++ stateStr volume.State)), ds)
      else
        let volume3 := { volume with
          NodeID := req.NodeID
          OwnerID := req.NodeID
          DesireState := VolumeState.Healthy }
        match updateVolume ds volume3 with
        | Except.error e => (wrapRes "unable to attach volume" (OpRes.err e), ds)
        | Except.ok ds2 => (OpRes.ok, ds2)

theorem dsLookup_wfVolumes {l : List (String × VolumeInfo)} {k : String}
    {v : VolumeInfo} (hwf : wfVolumes l = true) (h : dsLookup l k = some v) :
    v.Name = k := by
  induction l with
  | nil => simp [dsLookup] at h
  | cons kv rest ih =>
      obtain ⟨k0, v0⟩ := kv
      simp only [wfVolumes, List.all_cons, Bool.and_eq_true] at hwf
      simp only [dsLookup] at h
      by_cases hk : k0 = k
      · simp [hk] at h
        subst h
        have := hwf.1
        simp only [beq_iff_eq] at this
        simpa [hk] using this
      · simp [hk] at h
        exact ih (by simpa [wfVolumes] using hwf.2) h

/-- C1: VolumeAttach succeeds iff the volume exists in state Detached; on
success it sets NodeID and OwnerID to the requested node and DesireState to
Healthy and persists; a nonexistent volume yields the not-found error and a
volume in any other state yields the invalid-state error, the store being
unchanged in both failure cases. -/
theorem VolumeAttach_correct (ds : DataStore) (req : VolumeAttachRequest)
    (hwf : wfVolumes ds.volumes = true) :
    ((VolumeAttach ds req).1.isOk = true ↔
      ∃ v, getVolume ds req.Name = some v ∧ v.State = VolumeState.Detached)
    ∧ (getVolume ds req.Name = none →
        (VolumeAttach ds req).1 =
          OpRes.err ("unable to attach volume: cannot find volume " ++ req.Name)
        ∧ (VolumeAttach ds req).2 = ds)
    ∧ (∀ v, getVolume ds req.Name = some v → v.State ≠ VolumeState.Detached →
        (VolumeAttach ds req).1 =
          OpRes.err ("unable to attach volume: invalid state to attach: "
            ++ stateStr v.State)
        ∧ (VolumeAttach ds req).2 = ds)
    ∧ (∀ v, getVolume ds req.Name = some v → v.State = VolumeState.Detached →
        (VolumeAttach ds req).1 = OpRes.ok
        ∧ (VolumeAttach ds req).2 =
            setVolume ds req.Name (attachedVolume v req.NodeID)) := by
  cases hv : getVolume ds req.Name with
  | none =>
      have hrun : VolumeAttach ds req =
          (OpRes.err ("unable to attach volume: cannot find volume "
            ++ req.Name), ds) := by
        simp [VolumeAttach, hv, wrapRes, ← String.append_assoc]
      refine ⟨?_, ?_, ?_, ?_⟩
      · simp [hrun, OpRes.isOk]
      · intro _
        exact ⟨by rw [hrun], by rw [hrun]⟩
      · intro w hsome
        exact absurd hsome (by simp)
      · intro w hsome
        exact absurd hsome (by simp)
  | some v =>
      have hname : v.Name = req.Name := dsLookup_wfVolumes hwf hv
      by_cases hst : v.State = VolumeState.Detached
      · have hupd : updateVolume ds { v with NodeID := req.NodeID, OwnerID := req.NodeID, DesireState := VolumeState.Healthy } =
            Except.ok (setVolume ds req.Name (attachedVolume v req.NodeID)) := by
          simp only [updateVolume, setVolume, attachedVolume, hname]
          have hlk : dsLookup ds.volumes req.Name = some v := hv
          simp [hlk]
        have hrun : VolumeAttach ds req =
            (OpRes.ok, setVolume ds req.Name (attachedVolume v req.NodeID)) := by
          simp only [VolumeAttach, hv]
          rw [if_neg (not_not_intro hst)]
          simp only [hupd]
        refine ⟨?_, ?_, ?_, ?_⟩
        · simp [hrun, OpRes.isOk, hst]
        · intro hnone
          exact absurd hnone (by simp)
        · intro w hsome hwst
          injection hsome with h
          subst h
          exact absurd hst hwst
        · intro w hsome _
          injection hsome with h
          subst h
          exact ⟨by rw [hrun], by rw [hrun]⟩
      · have hrun : VolumeAttach ds req =
            (OpRes.err ("unable to attach volume: invalid state to attach: "
              ++ stateStr v.State), ds) := by
          simp [VolumeAttach, hv, hst, wrapRes, ← String.append_assoc]
        refine ⟨?_, ?_, ?_, ?_⟩
        · simp [hrun, OpRes.isOk, hst]
        · intro hnone
          exact absurd hnone (by simp)
        · intro w hsome hwst
          injection hsome with h
          subst h
          exact ⟨by rw [hrun], by rw [hrun]⟩
        · intro w hsome hwdet
          injection hsome with h
          subst h
          exact absurd hwdet hst

/-- A sample store used by witnesses: one detached volume v1 with one
failed and one healthy replica, plus one faulted volume v2. -/
def sampleVolume : VolumeInfo :=
  { Name := "v1", OwnerID := "", Size := "10737418240", FromBackup := ""
    NumberOfReplicas := 2, StaleReplicaTimeout := 20
    DesireState := VolumeState.Detached, NodeID := "", RecurringJobs := []
    Created := "t0", State := VolumeState.Detached }

def sampleFaultVolume : VolumeInfo :=
  { Name := "v2", OwnerID := "n1", Size := "1073741824", FromBackup := ""
    NumberOfReplicas := 2, StaleReplicaTimeout := 20
    DesireState := VolumeState.Healthy, NodeID := "n1", RecurringJobs := []
    Created := "t0", State := VolumeState.Fault }

def sampleStore : DataStore :=
  { volumes := [("v1", sampleVolume), ("v2", sampleFaultVolume)]
    replicas :=
      [(("v2", "r1"), { Name := "r1", VolumeName := "v2", FailedAt := "t1" }),
       (("v2", "r2"), { Name := "r2", VolumeName := "v2", FailedAt := "" })] }

/-- Witness for C1: at the sample store, attaching detached v1 to node n1
succeeds and persists the expected record. -/
theorem VolumeAttach_correct_witness :
    (VolumeAttach sampleStore { Name := "v1", NodeID := "n1" }).1 = OpRes.ok
    ∧ (VolumeAttach sampleStore { Name := "v1", NodeID := "n1" }).2 =
        setVolume sampleStore "v1" (attachedVolume sampleVolume "n1") :=
  (VolumeAttach_correct sampleStore { Name := "v1", NodeID := "n1" }
      (by decide)).2.2.2 sampleVolume (by decide) (by decide)

/-- Lookup after writing the same key finds the written value. -/
theorem dsLookup_dsSet_self {κ α : Type} [DecidableEq κ]
    (l : List (κ × α)) (k : κ) (v : α) :
    dsLookup (dsSet l k v) k = some v := by
  induction l with
  | nil => simp [dsSet, dsLookup]
  | cons kv rest ih =>
      obtain ⟨k0, w⟩ := kv
      by_cases hk : k0 = k
      · simp [dsSet, hk, dsLookup]
      · simp [dsSet, hk, dsLookup, ih]

/-- Lookup at a different key is unaffected by a write. -/
theorem dsLookup_dsSet_ne {κ α : Type} [DecidableEq κ]
    (l : List (κ × α)) (k k2 : κ) (v : α) (h : k ≠ k2) :
    dsLookup (dsSet l k v) k2 = dsLookup l k2 := by
  induction l with
  | nil => simp [dsSet, dsLookup, h]
  | cons kv rest ih =>
      obtain ⟨k0, w⟩ := kv
      by_cases hk : k0 = k
      · subst hk
        simp [dsSet, dsLookup, h]
      · simp [dsSet, hk, dsLookup, ih]

/-- A write whose value satisfies an entrywise invariant preserves it. -/
theorem all_dsSet {κ α : Type} [DecidableEq κ] (P : κ × α → Bool)
    (l : List (κ × α)) (k : κ) (v : α)
    (hP : P (k, v) = true) (hl : l.all P = true) :
    (dsSet l k v).all P = true := by
  induction l with
  | nil => simp [dsSet, hP]
  | cons kv rest ih =>
      obtain ⟨k0, w⟩ := kv
      simp only [List.all_cons, Bool.and_eq_true] at hl
      by_cases hk : k0 = k
      · simp [dsSet, hk, List.all_cons, hP, hl.2]
      · simp [dsSet, hk, List.all_cons, hl.1, ih hl.2]

theorem dsLookup_wfReplicas {l : List ((String × String) × ReplicaInfo)}
    {k : String × String} {r : ReplicaInfo}
    (hwf : wfReplicas l = true) (h : dsLookup l k = some r) :
    r.VolumeName = k.1 ∧ r.Name = k.2 := by
  induction l with
  | nil => simp [dsLookup] at h
  | cons kv rest ih =>
      obtain ⟨k0, r0⟩ := kv
      simp only [wfReplicas, List.all_cons, Bool.and_eq_true] at hwf
      simp only [dsLookup] at h
      by_cases hk : k0 = k
      · simp [hk] at h
        subst h
        have := hwf.1
        simp only [Bool.and_eq_true, beq_iff_eq] at this
        exact ⟨by rw [this.1, hk], by rw [this.2, hk]⟩
      · simp [hk] at h
        exact ih (by simpa [wfReplicas] using hwf.2) h

theorem wfVolumes_dsSet {l : List (String × VolumeInfo)} {k : String}
    {v : VolumeInfo} (hv : v.Name = k) (hwf : wfVolumes l = true) :
    wfVolumes (dsSet l k v) = true := by
  apply all_dsSet
  · simp [hv]
  · exact hwf

theorem wfReplicas_dsSet {l : List ((String × String) × ReplicaInfo)}
    {r : ReplicaInfo} (hwf : wfReplicas l = true) :
    wfReplicas (dsSet l (r.VolumeName, r.Name) r) = true := by
  apply all_dsSet
  · simp
  · exact hwf

/-- A successful volume update is exactly a keyed overwrite. -/
theorem updateVolume_ok {ds : DataStore} {v : VolumeInfo}
    (h : (dsLookup ds.volumes v.Name).isSome = true) :
    updateVolume ds v =
      Except.ok { ds with volumes := dsSet ds.volumes v.Name v } := by
  simp [updateVolume, h]

/-- A successful replica update is exactly a keyed overwrite. -/
theorem updateVolumeReplica_ok {ds : DataStore} {r : ReplicaInfo}
    (h : (dsLookup ds.replicas (r.VolumeName, r.Name)).isSome = true) :
    updateVolumeReplica ds r =
      Except.ok { ds with
        replicas := dsSet ds.replicas (r.VolumeName, r.Name) r } := by
  simp [updateVolumeReplica, h]

/-- Replica updates never touch the volume records. -/
theorem updateVolumeReplica_volumes {ds : DataStore} {r : ReplicaInfo}
    {ds2 : DataStore} (h : updateVolumeReplica ds r = Except.ok ds2) :
    ds2.volumes = ds.volumes := by
  simp only [updateVolumeReplica] at h
  split at h
  · injection h with h2
    rw [← h2]
  · cases h

/-- `VolumeDetachRequest` fields used by the facade. -/
structure VolumeDetachRequest where
  Name : String
  deriving DecidableEq, Repr

/-- `VolumeManager.VolumeDetach` (manager.go lines 134 to 160): requires
state Healthy or Degraded, then clears NodeID and sets DesireState to
Detached and persists. -/
def VolumeDetach (ds : DataStore) (req : VolumeDetachRequest) :
    OpRes × DataStore :=
  match getVolume ds req.Name with
  | none =>
      (wrapRes "unable to detach volume"
        (OpRes.err ("cannot find volume " ++ req.Name)), ds)
  | some volume =>
      if volume.State ≠ VolumeState.Healthy ∧
          volume.State ≠ VolumeState.Degraded then
        (wrapRes "unable to detach volume"
          (OpRes.err ("invalid state to detach: " ++ stateStr volume.State)), ds)
      else
        let volume2 := { volume with
          DesireState := VolumeState.Detached
          NodeID := "" }
        match updateVolume ds volume2 with
        | Except.error e => (wrapRes "unable to detach volume" (OpRes.err e), ds)
        | Except.ok ds2 => (OpRes.ok, ds2)

/-- `VolumeDeleteRequest` fields used by the facade. -/
structure VolumeDeleteRequest where
  Name : String
  deriving DecidableEq, Repr

/-- `VolumeManager.VolumeDelete` (manager.go lines 162 to 183): any state is
accepted; only DesireState is set (to Deleted) and the record persisted; a
missing record is a not-found error with no write. -/
def VolumeDelete (ds : DataStore) (req : VolumeDeleteRequest) :
    OpRes × DataStore :=
  match getVolume ds req.Name with
  | none =>
      (wrapRes "unable to delete volume"
        (OpRes.err ("cannot find volume " ++ req.Name)), ds)
  | some volume =>
      let volume2 := { volume with DesireState := VolumeState.Deleted }
      match updateVolume ds volume2 with
      | Except.error e => (wrapRes "unable to delete volume" (OpRes.err e), ds)
      | Except.ok ds2 => (OpRes.ok, ds2)

/-- `VolumeRecurringUpdateRequest` fields used by the facade. -/
structure VolumeRecurringUpdateRequest where
  Name : String
  RecurringJobs : List String
  deriving DecidableEq, Repr

/-- `VolumeManager.VolumeRecurringUpdate` (manager.go lines 226 to 247):
replaces RecurringJobs and persists; no state precondition. -/
def VolumeRecurringUpdate (ds : DataStore)
    (req : VolumeRecurringUpdateRequest) : OpRes × DataStore :=
  match getVolume ds req.Name with
  | none =>
      (wrapRes "unable to update volume recurring jobs"
        (OpRes.err ("cannot find volume " ++ req.Name)), ds)
  | some volume =>
      let volume2 := { volume with RecurringJobs := req.RecurringJobs }
      match updateVolume ds volume2 with
      | Except.error e =>
          (wrapRes "unable to update volume recurring jobs" (OpRes.err e), ds)
      | Except.ok ds2 => (OpRes.ok, ds2)

/-- C10: VolumeDelete on a missing record is a not-found error with no
datastore write; on any existing record, in any state, it succeeds and the
only change to the record is DesireState becoming Deleted. -/
theorem VolumeDelete_correct (ds : DataStore) (req : VolumeDeleteRequest)
    (hwf : wfVolumes ds.volumes = true) :
    (getVolume ds req.Name = none →
      (VolumeDelete ds req).1 =
        OpRes.err ("unable to delete volume: cannot find volume " ++ req.Name)
      ∧ (VolumeDelete ds req).2 = ds)
    ∧ (∀ v, getVolume ds req.Name = some v →
        (VolumeDelete ds req).1 = OpRes.ok
        ∧ (VolumeDelete ds req).2 =
            setVolume ds req.Name { v with DesireState := VolumeState.Deleted }) := by
  cases hv : getVolume ds req.Name with
  | none =>
      constructor
      · intro _
        constructor
        · simp [VolumeDelete, hv, wrapRes, ← String.append_assoc]
        · simp [VolumeDelete, hv]
      · intro w hsome
        exact absurd hsome (by simp)
  | some v =>
      have hname : v.Name = req.Name := dsLookup_wfVolumes hwf hv
      have hupd : updateVolume ds { v with DesireState := VolumeState.Deleted } =
          Except.ok (setVolume ds req.Name { v with DesireState := VolumeState.Deleted }) := by
        have hs : (dsLookup ds.volumes
            ({ v with DesireState := VolumeState.Deleted } : VolumeInfo).Name).isSome = true := by
          have hlk : dsLookup ds.volumes req.Name = some v := hv
          simp [hname, hlk]
        rw [updateVolume_ok hs]
        simp [setVolume, hname]
      constructor
      · intro hnone
        exact absurd hnone (by simp)
      · intro w hsome
        injection hsome with h
        subst h
        have hrun : VolumeDelete ds req =
            (OpRes.ok, setVolume ds req.Name { v with DesireState := VolumeState.Deleted }) := by
          simp only [VolumeDelete, hv, hupd]
        exact ⟨by rw [hrun], by rw [hrun]⟩

/-- Witness for C10: deleting the faulted volume v2 in the sample store
succeeds and rewrites only its DesireState. -/
theorem VolumeDelete_correct_witness :
    (VolumeDelete sampleStore { Name := "v2" }).1 = OpRes.ok
    ∧ (VolumeDelete sampleStore { Name := "v2" }).2 =
        setVolume sampleStore "v2"
          { sampleFaultVolume with DesireState := VolumeState.Deleted } :=
  (VolumeDelete_correct sampleStore { Name := "v2" } (by decide)).2
    sampleFaultVolume (by decide)

/-- `VolumeSalvageRequest` fields used by the facade. -/
structure VolumeSalvageRequest where
  Name : String
  SalvageReplicaNames : List String
  deriving DecidableEq, Repr

/-- The replica loop of VolumeSalvage (manager.go lines 204 to 216): each
named replica is loaded, required to be failed, cleared and persisted in
turn; a missing replica record would make the Go code read FailedAt off a
nil pointer, modelled as the nilDeref outcome. -/
def salvageReplicas (volumeName : String) :
    DataStore → List String → OpRes × DataStore
  | ds, [] => (OpRes.ok, ds)
  | ds, repName :: rest =>
      match getVolumeReplica ds volumeName repName with
      | none => (OpRes.nilDeref "replica.FailedAt", ds)
      | some replica =>
          if replica.FailedAt = "" then
            (OpRes.err ("replica " ++ repName ++ " is not bad"), ds)
          else
            match updateVolumeReplica ds { replica with FailedAt := "" } with
            | Except.error e => (OpRes.err e, ds)
            | Except.ok ds2 => salvageReplicas volumeName ds2 rest

/-- `VolumeManager.VolumeSalvage` (manager.go lines 185 to 224): requires
state Fault, runs the replica loop, and only after the whole loop succeeds
sets DesireState to Detached on the volume and persists it.  A loop failure
returns with whatever replica updates already happened left in place. -/
def VolumeSalvage (ds : DataStore) (req : VolumeSalvageRequest) :
    OpRes × DataStore :=
  match getVolume ds req.Name with
  | none =>
      (wrapRes "unable to salvage volume"
        (OpRes.err ("cannot find volume " ++ req.Name)), ds)
  | some volume =>
      if volume.State ≠ VolumeState.Fault then
        (wrapRes "unable to salvage volume"
          (OpRes.err ("invalid state to salvage: " ++ stateStr volume.State)), ds)
      else
        match salvageReplicas volume.Name ds req.SalvageReplicaNames with
        | (OpRes.ok, ds2) =>
            let volume2 := { volume with DesireState := VolumeState.Detached }
            match updateVolume ds2 volume2 with
            | Except.error e =>
                (wrapRes "unable to salvage volume" (OpRes.err e), ds2)
            | Except.ok ds3 => (OpRes.ok, ds3)
        | (OpRes.err e, ds2) =>
            (wrapRes "unable to salvage volume" (OpRes.err e), ds2)
        | (OpRes.nilDeref s, ds2) => (OpRes.nilDeref s, ds2)

/-- Every replica named in the list currently exists and is marked failed
(FailedAt nonempty). -/
def allNamedFailed (ds : DataStore) (vol : String) (names : List String) :
    Bool :=
  names.all fun n =>
    match getVolumeReplica ds vol n with
    | none => false
    | some r => r.FailedAt != ""

/-- Some replica named in the list currently exists and is healthy
(FailedAt empty). -/
def anyNamedHealthy (ds : DataStore) (vol : String) (names : List String) :
    Bool :=
  names.any fun n =>
    match getVolumeReplica ds vol n with
    | none => false
    | some r => r.FailedAt == ""

/-- The replica loop never touches the volume records. -/
theorem salvageReplicas_volumes (vol : String) (names : List String) :
    ∀ ds : DataStore, (salvageReplicas vol ds names).2.volumes = ds.volumes := by
  induction names with
  | nil => intro ds; rfl
  | cons n rest ih =>
      intro ds
      cases hg : getVolumeReplica ds vol n with
      | none => simp [salvageReplicas, hg]
      | some r =>
          by_cases hf : r.FailedAt = ""
          · simp [salvageReplicas, hg, hf]
          · cases hu : updateVolumeReplica ds { r with FailedAt := "" } with
            | error e => simp [salvageReplicas, hg, hf, hu]
            | ok ds2 =>
                have hstep : salvageReplicas vol ds (n :: rest) =
                    salvageReplicas vol ds2 rest := by
                  simp [salvageReplicas, hg, hf, hu]
                rw [hstep, ih ds2, updateVolumeReplica_volumes hu]

/-- When every named replica exists and is failed (and the names are
distinct), the loop succeeds, clears exactly the named replicas, leaves all
other replicas and all volume records alone, and preserves replica
well-formedness. -/
theorem salvageReplicas_all_failed (vol : String) (names : List String) :
    ∀ ds : DataStore, wfReplicas ds.replicas = true → names.Nodup →
      allNamedFailed ds vol names = true →
      ∃ ds2, salvageReplicas vol ds names = (OpRes.ok, ds2)
        ∧ ds2.volumes = ds.volumes
        ∧ wfReplicas ds2.replicas = true
        ∧ (∀ n ∈ names, ∃ r,
            getVolumeReplica ds2 vol n = some r ∧ r.FailedAt = "")
        ∧ (∀ w m, w ≠ vol ∨ m ∉ names →
            getVolumeReplica ds2 w m = getVolumeReplica ds w m) := by
  induction names with
  | nil =>
      intro ds hwf _ _
      exact ⟨ds, rfl, rfl, hwf, by simp, fun w m _ => rfl⟩
  | cons n rest ih =>
      intro ds hwf hnd hall
      simp only [allNamedFailed, List.all_cons, Bool.and_eq_true] at hall
      obtain ⟨h1, h2⟩ := hall
      cases hg : getVolumeReplica ds vol n with
      | none => rw [hg] at h1; cases h1
      | some r =>
          rw [hg] at h1
          have hfail : r.FailedAt ≠ "" := by simpa using h1
          obtain ⟨hkv, hkn⟩ := dsLookup_wfReplicas hwf hg
          have hkey : (({ r with FailedAt := "" } : ReplicaInfo).VolumeName,
              ({ r with FailedAt := "" } : ReplicaInfo).Name) = (vol, n) := by
            simp [hkv, hkn]
          have hupd : updateVolumeReplica ds { r with FailedAt := "" } =
              Except.ok (setReplica ds (vol, n) { r with FailedAt := "" }) := by
            have hsome : (dsLookup ds.replicas
                (({ r with FailedAt := "" } : ReplicaInfo).VolumeName,
                 ({ r with FailedAt := "" } : ReplicaInfo).Name)).isSome = true := by
              rw [hkey]
              have : dsLookup ds.replicas (vol, n) = some r := hg
              simp [this]
            rw [updateVolumeReplica_ok hsome, hkey]
            rfl
          set ds1 : DataStore :=
            setReplica ds (vol, n) { r with FailedAt := "" } with hds1
          have hwf1 : wfReplicas ds1.replicas = true := by
            rw [hds1, setReplica]
            have := wfReplicas_dsSet (r := { r with FailedAt := "" }) hwf
            rw [hkey] at this
            exact this
          have hnd1 : rest.Nodup := (List.nodup_cons.mp hnd).2
          have hnmem : n ∉ rest := (List.nodup_cons.mp hnd).1
          have hlookup1 : ∀ m, m ≠ n →
              getVolumeReplica ds1 vol m = getVolumeReplica ds vol m := by
            intro m hm
            rw [hds1]
            show dsLookup (dsSet ds.replicas (vol, n) _) (vol, m) = _
            rw [dsLookup_dsSet_ne]
            · rfl
            · simp [hm.symm]
          have hall1 : allNamedFailed ds1 vol rest = true := by
            rw [allNamedFailed, List.all_eq_true]
            intro m hm
            have hmn : m ≠ n := fun h => hnmem (h ▸ hm)
            rw [hlookup1 m hmn]
            exact (List.all_eq_true.mp h2) m hm
          obtain ⟨ds2, hrun, hvols, hwf2, hclear, hframe⟩ := ih ds1 hwf1 hnd1 hall1
          refine ⟨ds2, ?_, ?_, hwf2, ?_, ?_⟩
          · simp only [salvageReplicas, hg, if_neg hfail, hupd]
            exact hrun
          · rw [hvols, hds1]
            rfl
          · intro m hm
            rcases List.mem_cons.mp hm with hm1 | hm2
            · subst hm1
              refine ⟨{ r with FailedAt := "" }, ?_, rfl⟩
              rw [hframe vol m (Or.inr hnmem), hds1]
              show dsLookup (dsSet ds.replicas (vol, m) _) (vol, m) = _
              rw [dsLookup_dsSet_self]
            · exact hclear m hm2
          · intro w m hwm
            have hwm2 : w ≠ vol ∨ m ∉ rest := by
              rcases hwm with h | h
              · exact Or.inl h
              · exact Or.inr (fun hmem => h (List.mem_cons_of_mem n hmem))
            rw [hframe w m hwm2]
            by_cases hwv : w = vol
            · subst hwv
              have hmn : m ≠ n := by
                rcases hwm with h | h
                · exact absurd rfl h
                · exact fun he => h (he ▸ List.mem_cons_self n rest)
              exact hlookup1 m hmn
            · rw [hds1]
              show dsLookup (dsSet ds.replicas (vol, n) _) (w, m) = _
              rw [dsLookup_dsSet_ne]
              · rfl
              · simp [Ne.symm hwv]

/-- When some named replica exists and is healthy, the loop cannot succeed:
it stops with an error at the first offending name (or panics earlier on a
missing record). -/
theorem salvageReplicas_healthy_fails (vol : String) (names : List String) :
    ∀ ds : DataStore, wfReplicas ds.replicas = true →
      anyNamedHealthy ds vol names = true →
      (salvageReplicas vol ds names).1 ≠ OpRes.ok := by
  induction names with
  | nil =>
      intro ds _ h
      simp [anyNamedHealthy] at h
  | cons n rest ih =>
      intro ds hwf hany
      simp only [anyNamedHealthy, List.any_cons, Bool.or_eq_true] at hany
      cases hg : getVolumeReplica ds vol n with
      | none => simp [salvageReplicas, hg]
      | some r =>
          by_cases hf : r.FailedAt = ""
          · simp [salvageReplicas, hg, hf]
          · have hrest : ∃ m ∈ rest, ∃ rm,
                getVolumeReplica ds vol m = some rm ∧ rm.FailedAt = "" := by
              rcases hany with h1 | h1
              · rw [hg] at h1
                exact absurd (by simpa using h1) hf
              · obtain ⟨m, hm, hp⟩ := List.any_eq_true.mp h1
                cases hgm : getVolumeReplica ds vol m with
                | none => rw [hgm] at hp; cases hp
                | some rm =>
                    rw [hgm] at hp
                    exact ⟨m, hm, rm, hgm, by simpa using hp⟩
            obtain ⟨hkv, hkn⟩ := dsLookup_wfReplicas hwf hg
            have hkey : (({ r with FailedAt := "" } : ReplicaInfo).VolumeName,
                ({ r with FailedAt := "" } : ReplicaInfo).Name) = (vol, n) := by
              simp [hkv, hkn]
            have hupd : updateVolumeReplica ds { r with FailedAt := "" } =
                Except.ok (setReplica ds (vol, n) { r with FailedAt := "" }) := by
              have hsome : (dsLookup ds.replicas
                  (({ r with FailedAt := "" } : ReplicaInfo).VolumeName,
                   ({ r with FailedAt := "" } : ReplicaInfo).Name)).isSome = true := by
                rw [hkey]
                have : dsLookup ds.replicas (vol, n) = some r := hg
                simp [this]
              rw [updateVolumeReplica_ok hsome, hkey]
              rfl
            set ds1 : DataStore :=
              setReplica ds (vol, n) { r with FailedAt := "" } with hds1
            have hwf1 : wfReplicas ds1.replicas = true := by
              rw [hds1, setReplica]
              have := wfReplicas_dsSet (r := { r with FailedAt := "" }) hwf
              rw [hkey] at this
              exact this
            have hany1 : anyNamedHealthy ds1 vol rest = true := by
              obtain ⟨m, hm, rm, hgm, hrm⟩ := hrest
              have hmn : m ≠ n := by
                intro he
                subst he
                rw [hg] at hgm
                injection hgm with h3
                subst h3
                exact hf hrm
              rw [anyNamedHealthy, List.any_eq_true]
              refine ⟨m, hm, ?_⟩
              have : getVolumeReplica ds1 vol m = getVolumeReplica ds vol m := by
                rw [hds1]
                show dsLookup (dsSet ds.replicas (vol, n) _) (vol, m) = _
                rw [dsLookup_dsSet_ne]
                · rfl
                · simp [hmn.symm]
              rw [this, hgm]
              simpa using hrm
            simp only [salvageReplicas, hg, if_neg hf, hupd]
            exact ih ds1 hwf1 hany1

/-- C2 counterexample: at the sample store (volume v2 in Fault state,
replica r1 failed, replica r2 healthy), VolumeSalvage with names
[r1, r2] fails because r2 is not failed, yet the store HAS changed:
r1's FailedAt was already cleared and persisted before the failure, so
"fails entirely with no record changes" does not hold. -/
theorem VolumeSalvage_counterexample :
    (VolumeSalvage sampleStore
      { Name := "v2", SalvageReplicaNames := ["r1", "r2"] }).1.isOk = false
    ∧ (VolumeSalvage sampleStore
        { Name := "v2", SalvageReplicaNames := ["r1", "r2"] }).2 ≠ sampleStore
    ∧ getVolumeReplica (VolumeSalvage sampleStore
        { Name := "v2", SalvageReplicaNames := ["r1", "r2"] }).2 "v2" "r1" =
        some { Name := "r1", VolumeName := "v2", FailedAt := "" } := by
  decide

/-- C2 (amended): a salvage that does not succeed never writes the volume
record (the volume is only updated after the whole replica loop succeeds);
if some named replica exists with an empty FailedAt the operation fails
(replicas processed before the offending one keep their already-persisted
cleared FailedAt); if every named replica is currently failed, every named
replica's FailedAt is cleared and persisted and the volume's DesireState
becomes Detached. -/
theorem VolumeSalvage_amended (ds : DataStore) (req : VolumeSalvageRequest)
    (hwfv : wfVolumes ds.volumes = true)
    (hwfr : wfReplicas ds.replicas = true) :
    ((VolumeSalvage ds req).1.isOk = false →
      (VolumeSalvage ds req).2.volumes = ds.volumes)
    ∧ (∀ v, getVolume ds req.Name = some v → v.State = VolumeState.Fault →
        anyNamedHealthy ds v.Name req.SalvageReplicaNames = true →
        (VolumeSalvage ds req).1.isOk = false)
    ∧ (∀ v, getVolume ds req.Name = some v → v.State = VolumeState.Fault →
        req.SalvageReplicaNames.Nodup →
        allNamedFailed ds v.Name req.SalvageReplicaNames = true →
        (VolumeSalvage ds req).1 = OpRes.ok
        ∧ (∀ n ∈ req.SalvageReplicaNames, ∃ r,
            getVolumeReplica (VolumeSalvage ds req).2 v.Name n = some r
            ∧ r.FailedAt = "")
        ∧ (VolumeSalvage ds req).2.volumes =
            dsSet ds.volumes req.Name { v with DesireState := VolumeState.Detached }) := by
  refine ⟨?_, ?_, ?_⟩
  · intro hfail
    cases hv : getVolume ds req.Name with
    | none => simp [VolumeSalvage, hv]
    | some v =>
        by_cases hst : v.State = VolumeState.Fault
        · have hs := salvageReplicas_volumes v.Name req.SalvageReplicaNames ds
          cases hloop : salvageReplicas v.Name ds req.SalvageReplicaNames with
          | mk res ds2 =>
              have hs2 : ds2.volumes = ds.volumes := by
                rw [hloop] at hs
                exact hs
              cases res with
              | ok =>
                  cases hu : updateVolume ds2
                      { v with DesireState := VolumeState.Detached } with
                  | error e =>
                      have hrun : VolumeSalvage ds req =
                          (wrapRes "unable to salvage volume" (OpRes.err e), ds2) := by
                        simp only [VolumeSalvage, hv]
                        rw [if_neg (not_not_intro hst), hloop]
                        simp only [hu]
                      rw [hrun]
                      exact hs2
                  | ok ds3 =>
                      have hrun : VolumeSalvage ds req = (OpRes.ok, ds3) := by
                        simp only [VolumeSalvage, hv]
                        rw [if_neg (not_not_intro hst), hloop]
                        simp only [hu]
                      rw [hrun] at hfail
                      simp [OpRes.isOk] at hfail
              | err e =>
                  have hrun : VolumeSalvage ds req =
                      (wrapRes "unable to salvage volume" (OpRes.err e), ds2) := by
                    simp only [VolumeSalvage, hv]
                    rw [if_neg (not_not_intro hst), hloop]
                  rw [hrun]
                  exact hs2
              | nilDeref s2 =>
                  have hrun : VolumeSalvage ds req = (OpRes.nilDeref s2, ds2) := by
                    simp only [VolumeSalvage, hv]
                    rw [if_neg (not_not_intro hst), hloop]
                  rw [hrun]
                  exact hs2
        · simp [VolumeSalvage, hv, hst]
  · intro v hsome hst hany
    have hne := salvageReplicas_healthy_fails v.Name req.SalvageReplicaNames
      ds hwfr hany
    cases hloop : salvageReplicas v.Name ds req.SalvageReplicaNames with
    | mk res ds2 =>
        rw [hloop] at hne
        cases res with
        | ok => exact absurd rfl hne
        | err e =>
            have hrun : VolumeSalvage ds req =
                (wrapRes "unable to salvage volume" (OpRes.err e), ds2) := by
              simp only [VolumeSalvage, hsome]
              rw [if_neg (not_not_intro hst), hloop]
            rw [hrun]
            simp [wrapRes, OpRes.isOk]
        | nilDeref s2 =>
            have hrun : VolumeSalvage ds req = (OpRes.nilDeref s2, ds2) := by
              simp only [VolumeSalvage, hsome]
              rw [if_neg (not_not_intro hst), hloop]
            rw [hrun]
            simp [OpRes.isOk]
  · intro v hsome hst hnd hall
    obtain ⟨ds2, hloop, hvols, hwf2, hclear, hframe⟩ :=
      salvageReplicas_all_failed v.Name req.SalvageReplicaNames ds hwfr hnd hall
    have hname : v.Name = req.Name := dsLookup_wfVolumes hwfv hsome
    have hs2 : dsLookup ds2.volumes req.Name = some v := by
      rw [hvols]
      exact hsome
    have hu : updateVolume ds2 { v with DesireState := VolumeState.Detached } =
        Except.ok (setVolume ds2 req.Name
          { v with DesireState := VolumeState.Detached }) := by
      have hsome2 : (dsLookup ds2.volumes
          ({ v with DesireState := VolumeState.Detached } : VolumeInfo).Name).isSome
            = true := by
        simp [hname, hs2]
      rw [updateVolume_ok hsome2]
      simp [setVolume, hname]
    have hrun : VolumeSalvage ds req = (OpRes.ok, setVolume ds2 req.Name
        { v with DesireState := VolumeState.Detached }) := by
      simp only [VolumeSalvage, hsome]
      rw [if_neg (not_not_intro hst), hloop]
      simp only [hu]
    refine ⟨by rw [hrun], ?_, ?_⟩
    · intro n hn
      obtain ⟨r, hr, hre⟩ := hclear n hn
      refine ⟨r, ?_, hre⟩
      rw [hrun]
      exact hr
    · rw [hrun]
      show dsSet ds2.volumes req.Name _ = dsSet ds.volumes req.Name _
      rw [hvols]

/-- A store where volume v2 is faulted and both replicas are failed, used
by the C2 witness. -/
def salvageOkStore : DataStore :=
  { volumes := [("v2", sampleFaultVolume)]
    replicas :=
      [(("v2", "r1"), { Name := "r1", VolumeName := "v2", FailedAt := "t1" }),
       (("v2", "r2"), { Name := "r2", VolumeName := "v2", FailedAt := "t2" })] }

/-- Witness for C2 (amended): with both named replicas failed, salvage
succeeds and the volume record is rewritten with DesireState Detached. -/
theorem VolumeSalvage_amended_witness :
    (VolumeSalvage salvageOkStore
      { Name := "v2", SalvageReplicaNames := ["r1", "r2"] }).1 = OpRes.ok
    ∧ (VolumeSalvage salvageOkStore
        { Name := "v2", SalvageReplicaNames := ["r1", "r2"] }).2.volumes =
        dsSet salvageOkStore.volumes "v2"
          { sampleFaultVolume with DesireState := VolumeState.Detached } := by
  have h := (VolumeSalvage_amended salvageOkStore
      { Name := "v2", SalvageReplicaNames := ["r1", "r2"] }
      (by decide) (by decide)).2.2 sampleFaultVolume
      (by decide) (by decide) (by decide) (by decide)
  exact ⟨h.1, h.2.2⟩

/-- A cluster node as seen by the facade (opaque identity). -/
structure Node where
  ID : String
  deriving DecidableEq, Repr

/-- Backup metadata resolved by `engineapi.GetBackup`: carries the
originally recorded volume size. -/
structure Backup where
  VolumeSize : String
  deriving DecidableEq, Repr

/-- Modelled from the spec: `GetRandomNode` returns one candidate node from
the registry, failing when none is registered; any deterministic selection
is allowed, the model picks the first registered node. -/
def GetRandomNode (nodes : List Node) : Except String Node :=
  match nodes with
  | [] => Except.error "no node available"
  | node :: _ => Except.ok node

/-- `VolumeCreateRequest` fields used by the facade. -/
structure VolumeCreateRequest where
  Name : String
  Size : String
  FromBackup : String
  NumberOfReplicas : Nat
  StaleReplicaTimeout : Nat
  deriving DecidableEq, Repr

/-- Modelled from the spec: `NewVolume` persists the constructed record
under its name. -/
def NewVolume (ds : DataStore) (info : VolumeInfo) : DataStore :=
  setVolume ds info.Name info

/-- The record VolumeCreate constructs (manager.go lines 81 to 97): owner
from the chosen node, resolved size, DesireState Detached, State Created,
Created set to the current time; NodeID and RecurringJobs keep Go zero
values. -/
def createdVolume (req : VolumeCreateRequest) (ownerID size now : String) :
    VolumeInfo :=
  { Name := req.Name, OwnerID := ownerID, Size := size
    FromBackup := req.FromBackup, NumberOfReplicas := req.NumberOfReplicas
    StaleReplicaTimeout := req.StaleReplicaTimeout
    DesireState := VolumeState.Detached, NodeID := "", RecurringJobs := []
    Created := now, State := VolumeState.Created }

/-- `VolumeManager.VolumeCreate` (manager.go lines 54 to 103): validate the
requested size, pick an owning node, resolve the backup (overriding the
size with the backup's recorded volume size) when FromBackup is set, then
persist the new record.  The external size parser, backup resolver, node
registry and clock are passed in as parameters. -/
def VolumeCreate (convertSize : String → Option Nat)
    (getBackup : String → Except String Backup)
    (nodes : List Node) (now : String)
    (ds : DataStore) (req : VolumeCreateRequest) : OpRes × DataStore :=
  match convertSize req.Size with
  | none =>
      (wrapRes "unable to create volume"
        (OpRes.err ("invalid size " ++ req.Size)), ds)
  | some _ =>
      match GetRandomNode nodes with
      | Except.error e => (wrapRes "unable to create volume" (OpRes.err e), ds)
      | Except.ok node =>
          if req.FromBackup ≠ "" then
            match getBackup req.FromBackup with
            | Except.error e =>
                (wrapRes "unable to create volume"
                  (OpRes.err ("cannot get backup " ++ req.FromBackup
                    ++ ": " ++ e)), ds)
            | Except.ok backup =>
                (OpRes.ok,
                  NewVolume ds (createdVolume req node.ID backup.VolumeSize now))
          else
            (OpRes.ok, NewVolume ds (createdVolume req node.ID req.Size now))

theorem getVolume_setVolume_self (ds : DataStore) (name : String)
    (v : VolumeInfo) : getVolume (setVolume ds name v) name = some v := by
  show dsLookup (dsSet ds.volumes name v) name = some v
  rw [dsLookup_dsSet_self]

/-- C6: a successful VolumeCreate with a nonempty FromBackup persists a
record whose Size is the backup's recorded volume size (not the request's),
with State Created, DesireState Detached, and OwnerID a node drawn from the
registry. -/
theorem VolumeCreate_fromBackup (convertSize : String → Option Nat)
    (getBackup : String → Except String Backup) (nodes : List Node)
    (now : String) (ds : DataStore) (req : VolumeCreateRequest)
    (hfb : req.FromBackup ≠ "")
    (hok : (VolumeCreate convertSize getBackup nodes now ds req).1 = OpRes.ok) :
    ∃ backup node info,
      getBackup req.FromBackup = Except.ok backup
      ∧ GetRandomNode nodes = Except.ok node
      ∧ node ∈ nodes
      ∧ (VolumeCreate convertSize getBackup nodes now ds req).2 =
          setVolume ds req.Name info
      ∧ getVolume (VolumeCreate convertSize getBackup nodes now ds req).2
          req.Name = some info
      ∧ info.Size = backup.VolumeSize
      ∧ info.State = VolumeState.Created
      ∧ info.DesireState = VolumeState.Detached
      ∧ info.OwnerID = node.ID := by
  cases hcs : convertSize req.Size with
  | none =>
      have hrun : VolumeCreate convertSize getBackup nodes now ds req =
          (wrapRes "unable to create volume"
            (OpRes.err ("invalid size " ++ req.Size)), ds) := by
        simp only [VolumeCreate, hcs]
      rw [hrun] at hok
      simp [wrapRes] at hok
  | some sz =>
      cases nodes with
      | nil =>
          have hrun : VolumeCreate convertSize getBackup [] now ds req =
              (wrapRes "unable to create volume"
                (OpRes.err "no node available"), ds) := by
            simp only [VolumeCreate, hcs, GetRandomNode]
          rw [hrun] at hok
          simp [wrapRes] at hok
      | cons node rest =>
          cases hgb : getBackup req.FromBackup with
          | error e =>
              have hrun : VolumeCreate convertSize getBackup (node :: rest)
                  now ds req =
                  (wrapRes "unable to create volume"
                    (OpRes.err ("cannot get backup " ++ req.FromBackup
                      ++ ": " ++ e)), ds) := by
                simp only [VolumeCreate, hcs, GetRandomNode]
                rw [if_pos hfb, hgb]
              rw [hrun] at hok
              simp [wrapRes] at hok
          | ok backup =>
              have hrun : VolumeCreate convertSize getBackup (node :: rest)
                  now ds req =
                  (OpRes.ok, NewVolume ds
                    (createdVolume req node.ID backup.VolumeSize now)) := by
                simp only [VolumeCreate, hcs, GetRandomNode]
                rw [if_pos hfb, hgb]
              refine ⟨backup, node,
                createdVolume req node.ID backup.VolumeSize now,
                rfl, rfl, List.mem_cons_self node rest, ?_, ?_, rfl, rfl, rfl, rfl⟩
              · rw [hrun]
                rfl
              · rw [hrun]
                show getVolume (setVolume ds req.Name
                  (createdVolume req node.ID backup.VolumeSize now)) req.Name = _
                rw [getVolume_setVolume_self]

/-- Size parser used by witnesses: accepts the two sizes that appear in
sample requests. -/
def sizeParser : String → Option Nat := fun s =>
  if s = "10Gi" then some 10737418240
  else if s = "bogus" then none
  else none

/-- Backup resolver used by witnesses: knows a single backup b1 recorded
with a 20 GiB volume size. -/
def backupResolver : String → Except String Backup := fun loc =>
  if loc = "b1" then Except.ok { VolumeSize := "21474836480" }
  else Except.error "backup not found"

/-- The empty datastore used by witnesses. -/
def emptyStore : DataStore := { volumes := [], replicas := [] }

/-- Witness for C6: creating from backup b1 with requested size 10Gi
persists a record whose size is the backup's 20 GiB. -/
theorem VolumeCreate_fromBackup_witness :
    ∃ backup node info,
      backupResolver "b1" = Except.ok backup
      ∧ GetRandomNode [Node.mk "n1"] = Except.ok node
      ∧ node ∈ [Node.mk "n1"]
      ∧ (VolumeCreate sizeParser backupResolver [Node.mk "n1"] "t1" emptyStore
          { Name := "v1", Size := "10Gi", FromBackup := "b1"
            NumberOfReplicas := 3, StaleReplicaTimeout := 20 }).2 =
          setVolume emptyStore "v1" info
      ∧ getVolume (VolumeCreate sizeParser backupResolver [Node.mk "n1"] "t1"
          emptyStore
          { Name := "v1", Size := "10Gi", FromBackup := "b1"
            NumberOfReplicas := 3, StaleReplicaTimeout := 20 }).2 "v1" =
          some info
      ∧ info.Size = backup.VolumeSize
      ∧ info.State = VolumeState.Created
      ∧ info.DesireState = VolumeState.Detached
      ∧ info.OwnerID = node.ID :=
  VolumeCreate_fromBackup sizeParser backupResolver [Node.mk "n1"] "t1"
    emptyStore
    { Name := "v1", Size := "10Gi", FromBackup := "b1"
      NumberOfReplicas := 3, StaleReplicaTimeout := 20 }
    (by decide) (by decide)

/-- C9: VolumeCreate mutates nothing when it fails for a validation or
precondition reason: unparsable size, no available node, or a failing
backup lookup all return an error with the datastore unchanged. -/
theorem VolumeCreate_no_mutation_on_failure (convertSize : String → Option Nat)
    (getBackup : String → Except String Backup) (nodes : List Node)
    (now : String) (ds : DataStore) (req : VolumeCreateRequest)
    (h : convertSize req.Size = none ∨ nodes = []
      ∨ (req.FromBackup ≠ "" ∧ ∃ e, getBackup req.FromBackup = Except.error e)) :
    (VolumeCreate convertSize getBackup nodes now ds req).1.isOk = false
    ∧ (VolumeCreate convertSize getBackup nodes now ds req).2 = ds := by
  cases hcs : convertSize req.Size with
  | none =>
      constructor
      · simp [VolumeCreate, hcs, wrapRes, OpRes.isOk]
      · simp [VolumeCreate, hcs]
  | some sz =>
      cases hn : nodes with
      | nil =>
          constructor
          · simp [VolumeCreate, hcs, GetRandomNode, wrapRes, OpRes.isOk]
          · simp [VolumeCreate, hcs, GetRandomNode]
      | cons node rest =>
          rcases h with h1 | h2 | h3
          · rw [hcs] at h1
            cases h1
          · rw [hn] at h2
            cases h2
          · obtain ⟨hfb, e, hgb⟩ := h3
            have hrun : VolumeCreate convertSize getBackup (node :: rest)
                now ds req =
                (wrapRes "unable to create volume"
                  (OpRes.err ("cannot get backup " ++ req.FromBackup
                    ++ ": " ++ e)), ds) := by
              simp only [VolumeCreate, hcs, GetRandomNode]
              rw [if_pos hfb, hgb]
            rw [hrun]
            exact ⟨rfl, rfl⟩

/-- Witness for C9: an unparsable size is rejected with the store
untouched. -/
theorem VolumeCreate_no_mutation_witness :
    (VolumeCreate sizeParser backupResolver [Node.mk "n1"] "t1" emptyStore
      { Name := "v1", Size := "bogus", FromBackup := ""
        NumberOfReplicas := 3, StaleReplicaTimeout := 20 }).1.isOk = false
    ∧ (VolumeCreate sizeParser backupResolver [Node.mk "n1"] "t1" emptyStore
        { Name := "v1", Size := "bogus", FromBackup := ""
          NumberOfReplicas := 3, StaleReplicaTimeout := 20 }).2 = emptyStore :=
  VolumeCreate_no_mutation_on_failure sizeParser backupResolver
    [Node.mk "n1"] "t1" emptyStore
    { Name := "v1", Size := "bogus", FromBackup := ""
      NumberOfReplicas := 3, StaleReplicaTimeout := 20 }
    (Or.inl (by decide))

/-- Modelled from the spec: `notifyVolume` emits one notification event
carrying the volume name; the event channel is modelled as the list of
names sent so far. -/
def notifyVolume (events : List String) (name : String) : List String :=
  events ++ [name]

/-- The body of `VolumeManager.VolumeCreateBySpec` before its deferred
closure runs (manager.go lines 338 to 372).  On a missing record the Go
code formats the not-found message with volume.Name while volume is nil,
which is a nil-pointer dereference: modelled as the nilDeref outcome.  The
external size parser and `ValidateVolume` are passed in as parameters. -/
def volumeCreateBySpecBody (convertSize : String → Option Nat)
    (validate : VolumeInfo → Option String) (now : String)
    (ds : DataStore) (name : String) : OpRes × DataStore :=
  match getVolume ds name with
  | none => (OpRes.nilDeref "volume.Name", ds)
  | some volume =>
      if volume.State = VolumeState.Created then
        (OpRes.ok, ds)
      else if volume.OwnerID = "" then
        (OpRes.err ("cannot create volume without target node ID: volume "
          ++ volume.Name), ds)
      else
        match convertSize volume.Size with
        | none => (OpRes.err ("invalid size " ++ volume.Size), ds)
        | some _ =>
            let volume2 := { volume with
              Created := now
              State := VolumeState.Created
              Name := name
              DesireState := VolumeState.Detached }
            match validate volume2 with
            | some e => (OpRes.err e, ds)
            | none =>
                match updateVolume ds volume2 with
                | Except.error e => (OpRes.err e, ds)
                | Except.ok ds2 => (OpRes.ok, ds2)

/-- `VolumeManager.VolumeCreateBySpec` including its deferred closure
(manager.go lines 330 to 336): an error return is wrapped and no event is
sent; on a nil error the closure calls notifyVolume(name) — and during a
panic the named err variable is still nil, so the notifier also fires
while the panic unwinds. -/
def VolumeCreateBySpec (convertSize : String → Option Nat)
    (validate : VolumeInfo → Option String) (now : String)
    (ds : DataStore) (events : List String) (name : String) :
    OpRes × DataStore × List String :=
  match volumeCreateBySpecBody convertSize validate now ds name with
  | (OpRes.ok, ds2) => (OpRes.ok, ds2, notifyVolume events name)
  | (OpRes.err e, ds2) =>
      (OpRes.err ("unable to create volume by spec: " ++ e), ds2, events)
  | (OpRes.nilDeref s2, ds2) => (OpRes.nilDeref s2, ds2, notifyVolume events name)

/-- A volume record already in Created state, for exercising the no-op
path of VolumeCreateBySpec. -/
def createdStateVolume : VolumeInfo :=
  { Name := "v3", OwnerID := "n1", Size := "10Gi", FromBackup := ""
    NumberOfReplicas := 2, StaleReplicaTimeout := 20
    DesireState := VolumeState.Detached, NodeID := "", RecurringJobs := []
    Created := "t0", State := VolumeState.Created }

def cbsStore : DataStore :=
  { volumes := [("v3", createdStateVolume)], replicas := [] }

/-- C3 counterexample: on a volume already in Created state the call does
leave the record unchanged, but it is not event-free — the deferred
success-path notifier fires and one event carrying the name is emitted, so
the claim that no notification event is emitted is false. -/
theorem VolumeCreateBySpec_noop_counterexample :
    (VolumeCreateBySpec sizeParser (fun _ => none) "t9" cbsStore [] "v3").1 =
      OpRes.ok
    ∧ (VolumeCreateBySpec sizeParser (fun _ => none) "t9" cbsStore [] "v3").2.1 =
        cbsStore
    ∧ (VolumeCreateBySpec sizeParser (fun _ => none) "t9" cbsStore [] "v3").2.2 ≠
        ([] : List String) := by
  decide

/-- C3 (amended): calling VolumeCreateBySpec on a volume whose State is
already Created is a no-op on the durable record every time (no timestamp
reset, no field writes), but each such call emits one notification event —
the success-path notifier fires on the no-op return as well. -/
theorem VolumeCreateBySpec_created_noop (convertSize : String → Option Nat)
    (validate : VolumeInfo → Option String) (now : String) (ds : DataStore)
    (events : List String) (name : String) (v : VolumeInfo)
    (hsome : getVolume ds name = some v)
    (hst : v.State = VolumeState.Created) :
    VolumeCreateBySpec convertSize validate now ds events name =
      (OpRes.ok, ds, events ++ [name]) := by
  have hbody : volumeCreateBySpecBody convertSize validate now ds name =
      (OpRes.ok, ds) := by
    simp [volumeCreateBySpecBody, hsome, hst]
  simp [VolumeCreateBySpec, hbody, notifyVolume]

/-- Witness for C3 (amended): the concrete no-op call returns success,
leaves the store untouched and emits exactly the one event v3. -/
theorem VolumeCreateBySpec_created_noop_witness :
    VolumeCreateBySpec sizeParser (fun _ => none) "t9" cbsStore [] "v3" =
      (OpRes.ok, cbsStore, ["v3"]) :=
  VolumeCreateBySpec_created_noop sizeParser (fun _ => none) "t9" cbsStore
    [] "v3" createdStateVolume (by decide) (by decide)

/-- A volume in Detached state with an owner, for the successful
create-by-spec path. -/
def specVolume : VolumeInfo :=
  { Name := "v4", OwnerID := "n1", Size := "10Gi", FromBackup := ""
    NumberOfReplicas := 2, StaleReplicaTimeout := 20
    DesireState := VolumeState.Detached, NodeID := "", RecurringJobs := []
    Created := "t0", State := VolumeState.Detached }

/-- A volume in Detached state without an owner, for the missing-OwnerID
failure path. -/
def noOwnerVolume : VolumeInfo :=
  { Name := "v5", OwnerID := "", Size := "10Gi", FromBackup := ""
    NumberOfReplicas := 2, StaleReplicaTimeout := 20
    DesireState := VolumeState.Detached, NodeID := "", RecurringJobs := []
    Created := "t0", State := VolumeState.Detached }

/-- A volume whose stored size does not parse, for the size-validation
failure path. -/
def badSizeVolume : VolumeInfo :=
  { Name := "v6", OwnerID := "n1", Size := "bogus", FromBackup := ""
    NumberOfReplicas := 2, StaleReplicaTimeout := 20
    DesireState := VolumeState.Detached, NodeID := "", RecurringJobs := []
    Created := "t0", State := VolumeState.Detached }

def specStore : DataStore :=
  { volumes := [("v4", specVolume), ("v5", noOwnerVolume),
                ("v6", badSizeVolume)]
    replicas := [] }

/-- C4: event accounting of VolumeCreateBySpec on concrete runs.  A
successful run emits exactly one event; the missing-owner, unparsable-size
and failed-validation error paths emit zero events; but the
volume-not-found path does not return an error at all — formatting the
not-found message dereferences the nil volume pointer (volume.Name), a
runtime panic, and the deferred notifier, seeing the still-nil err, emits
one event while the panic unwinds. -/
theorem VolumeCreateBySpec_event_accounting :
    (VolumeCreateBySpec sizeParser (fun _ => none) "t9" specStore [] "v4").1 =
      OpRes.ok
    ∧ (VolumeCreateBySpec sizeParser (fun _ => none) "t9" specStore [] "v4").2.2 =
        ["v4"]
    ∧ (VolumeCreateBySpec sizeParser (fun _ => none) "t9" specStore [] "v5").1 =
        OpRes.err ("unable to create volume by spec: "
          ++ "cannot create volume without target node ID: volume v5")
    ∧ (VolumeCreateBySpec sizeParser (fun _ => none) "t9" specStore [] "v5").2.2 =
        ([] : List String)
    ∧ (VolumeCreateBySpec sizeParser (fun _ => none) "t9" specStore [] "v6").2.2 =
        ([] : List String)
    ∧ (VolumeCreateBySpec sizeParser (fun _ => some "invalid spec") "t9"
        specStore [] "v4").2.2 = ([] : List String)
    ∧ (VolumeCreateBySpec sizeParser (fun _ => none) "t9" specStore [] "ghost").1 =
        OpRes.nilDeref "volume.Name"
    ∧ (VolumeCreateBySpec sizeParser (fun _ => none) "t9" specStore [] "ghost").2.2 =
        ["ghost"] := by
  decide

/-- C8: not-found behaviour across the facade at a concrete store.  Every
mutating operation called with a nonexistent volume name returns a wrapped
not-found error — except VolumeCreateBySpec, which dereferences the nil
record while formatting its message and panics instead of returning. -/
theorem VolumeManager_notfound_paths :
    (VolumeAttach sampleStore { Name := "nope", NodeID := "n1" }).1 =
      OpRes.err "unable to attach volume: cannot find volume nope"
    ∧ (VolumeDetach sampleStore { Name := "nope" }).1 =
        OpRes.err "unable to detach volume: cannot find volume nope"
    ∧ (VolumeDelete sampleStore { Name := "nope" }).1 =
        OpRes.err "unable to delete volume: cannot find volume nope"
    ∧ (VolumeSalvage sampleStore
        { Name := "nope", SalvageReplicaNames := [] }).1 =
        OpRes.err "unable to salvage volume: cannot find volume nope"
    ∧ (VolumeRecurringUpdate sampleStore
        { Name := "nope", RecurringJobs := [] }).1 =
        OpRes.err "unable to update volume recurring jobs: cannot find volume nope"
    ∧ (VolumeCreateBySpec sizeParser (fun _ => none) "t9" sampleStore []
        "nope").1 = OpRes.nilDeref "volume.Name" := by
  decide

/-- Modelled from the spec: the singleton durable settings record; its
fields are not determined by the slice, so one representative field with
the Go zero-value default stands in. -/
structure SettingsInfo where
  BackupTarget : String := ""
  deriving DecidableEq, Repr

/-- `VolumeManager.SettingsGet` (manager.go lines 269 to 283), transcribed
over the outcomes of its three datastore calls (first read, create,
re-read); Go multiple-return is a value-and-optional-error pair.  In the
source the `err :=` at the CreateSettings call declares a new err that
shadows the named outer one; the plain `=` assignment from the re-read
therefore stores the re-read's error in the shadowed inner variable, and
the final `return settings, err` returns the outer err, still nil.  The
create outcome is only logged. -/
def SettingsGet (firstRead : Option SettingsInfo × Option String)
    (createRes : Option String)
    (reRead : Option SettingsInfo × Option String) :
    Option SettingsInfo × Option String :=
  let settings := firstRead.1
  let err := firstRead.2
  match err with
  | some e => (none, some e)
  | none =>
      match settings with
      | some st => (some st, none)
      | none =>
          let _errShadowed := createRes
          let settings2 := reRead.1
          let _errShadowed2 := reRead.2
          (settings2, none)

/-- C7: the read-or-create path of SettingsGet does not propagate the
re-read's outcome in full: with an absent record (first read returns nil,
no error), a successful create, and a re-read that fails, the call returns
nil settings with a nil error — the re-read's error was assigned to the
shadowed inner err and dropped — while the claim requires the re-read's
value and error to be what SettingsGet returns.  A present record is
returned directly, and a first-read error is propagated, as claimed. -/
theorem SettingsGet_shadowed_error :
    SettingsGet (none, none) none (none, some "settings store unavailable") =
      (none, none)
    ∧ SettingsGet (none, none) none (none, some "settings store unavailable") ≠
        (none, some "settings store unavailable")
    ∧ SettingsGet (some {}, none) none (none, none) = (some {}, none)
    ∧ SettingsGet (none, some "read failed") none (none, none) =
        (none, some "read failed") := by
  decide

/-- Modelled from the spec: a live ManagedVolume handle wraps the current
VolumeInfo view of its volume (live engine/job handles are outside the
slice). -/
structure ManagedVolume where
  info : VolumeInfo
  deriving DecidableEq, Repr

/-- The manager state seen by the dispatch operations: the datastore plus
the managedVolumes cache, a mapping from volume name to resident
ManagedVolume. -/
structure MgrState where
  ds : DataStore
  managedVolumes : List (String × ManagedVolume)
  deriving DecidableEq, Repr

/-- Registration of a freshly constructed ManagedVolume in the cache
(abbreviation used in statements). -/
def registerManagedVolume (m : MgrState) (name : String) (info : VolumeInfo) :
    MgrState :=
  { m with managedVolumes := (name, ManagedVolume.mk info) :: m.managedVolumes }

/-- Modelled from the spec: getManagedVolume(name, create) returns the
resident cache entry if any; otherwise it loads the backing VolumeInfo and
constructs and registers a new ManagedVolume, or returns a not-found error
when the volume record does not exist.  The record-creating behaviour of
create = true on a missing record is not specified and not exercised: the
dispatch operations all pass create = false. -/
def getManagedVolume (m : MgrState) (name : String) (_create : Bool) :
    Except String ManagedVolume × MgrState :=
  match dsLookup m.managedVolumes name with
  | some mv => (Except.ok mv, m)
  | none =>
      match getVolume m.ds name with
      | none => (Except.error ("cannot find volume " ++ name), m)
      | some info => (Except.ok (ManagedVolume.mk info),
          registerManagedVolume m name info)

/-- A live engine-client handle (opaque; only its identity matters). -/
structure EngineClient where
  url : String
  deriving DecidableEq, Repr

/-- A background job record (opaque; only its identity matters). -/
structure Job where
  id : String
  deriving DecidableEq, Repr

/-- `VolumeManager.GetEngineClient` (manager.go lines 289 to 295): resolve
the ManagedVolume via the cache (create = false) and delegate; the
delegate parameter stands for the ManagedVolume method, whose body is
outside the slice. -/
def GetEngineClient (m : MgrState) (volumeName : String)
    (deleg : ManagedVolume → Except String EngineClient) :
    Except String EngineClient × MgrState :=
  match getManagedVolume m volumeName false with
  | (Except.error e, m2) => (Except.error e, m2)
  | (Except.ok volume, m2) => (deleg volume, m2)

/-- `VolumeManager.SnapshotPurge` (manager.go lines 297 to 303). -/
def SnapshotPurge (m : MgrState) (volumeName : String)
    (deleg : ManagedVolume → Except String Unit) :
    Except String Unit × MgrState :=
  match getManagedVolume m volumeName false with
  | (Except.error e, m2) => (Except.error e, m2)
  | (Except.ok volume, m2) => (deleg volume, m2)

/-- `VolumeManager.SnapshotBackup` (manager.go lines 305 to 311). -/
def SnapshotBackup (m : MgrState)
    (volumeName snapshotName backupTarget : String)
    (deleg : ManagedVolume → String → String → Except String Unit) :
    Except String Unit × MgrState :=
  match getManagedVolume m volumeName false with
  | (Except.error e, m2) => (Except.error e, m2)
  | (Except.ok volume, m2) => (deleg volume snapshotName backupTarget, m2)

/-- `VolumeManager.ReplicaRemove` (manager.go lines 313 to 319). -/
def ReplicaRemove (m : MgrState) (volumeName replicaName : String)
    (deleg : ManagedVolume → String → Except String Unit) :
    Except String Unit × MgrState :=
  match getManagedVolume m volumeName false with
  | (Except.error e, m2) => (Except.error e, m2)
  | (Except.ok volume, m2) => (deleg volume replicaName, m2)

/-- `VolumeManager.JobList` (manager.go lines 321 to 327): delegation to
ListJobsInfo cannot fail. -/
def JobList (m : MgrState) (volumeName : String)
    (deleg : ManagedVolume → List (String × Job)) :
    Except String (List (String × Job)) × MgrState :=
  match getManagedVolume m volumeName false with
  | (Except.error e, m2) => (Except.error e, m2)
  | (Except.ok volume, m2) => (Except.ok (deleg volume), m2)

/-- C5: each dispatch operation resolves its ManagedVolume through the
cache — returning the resident handle unchanged, or lazily constructing
and registering one from the backing record, or failing with not-found
when no record exists — then delegates to it, and never reads or writes
the datastore itself: the datastore component of the state is preserved by
every dispatch call, for every delegate. -/
theorem dispatch_resolves_through_cache (m : MgrState)
    (volumeName snapshotName backupTarget replicaName : String)
    (d1 : ManagedVolume → Except String EngineClient)
    (d2 : ManagedVolume → Except String Unit)
    (d3 : ManagedVolume → String → String → Except String Unit)
    (d4 : ManagedVolume → String → Except String Unit)
    (d5 : ManagedVolume → List (String × Job)) :
    ((GetEngineClient m volumeName d1).2.ds = m.ds
      ∧ (SnapshotPurge m volumeName d2).2.ds = m.ds
      ∧ (SnapshotBackup m volumeName snapshotName backupTarget d3).2.ds = m.ds
      ∧ (ReplicaRemove m volumeName replicaName d4).2.ds = m.ds
      ∧ (JobList m volumeName d5).2.ds = m.ds)
    ∧ (∀ mv, dsLookup m.managedVolumes volumeName = some mv →
        GetEngineClient m volumeName d1 = (d1 mv, m)
        ∧ SnapshotPurge m volumeName d2 = (d2 mv, m)
        ∧ SnapshotBackup m volumeName snapshotName backupTarget d3 =
            (d3 mv snapshotName backupTarget, m)
        ∧ ReplicaRemove m volumeName replicaName d4 = (d4 mv replicaName, m)
        ∧ JobList m volumeName d5 = (Except.ok (d5 mv), m))
    ∧ (∀ info, dsLookup m.managedVolumes volumeName = none →
        getVolume m.ds volumeName = some info →
        GetEngineClient m volumeName d1 =
          (d1 (ManagedVolume.mk info), registerManagedVolume m volumeName info)
        ∧ SnapshotPurge m volumeName d2 =
            (d2 (ManagedVolume.mk info), registerManagedVolume m volumeName info)
        ∧ SnapshotBackup m volumeName snapshotName backupTarget d3 =
            (d3 (ManagedVolume.mk info) snapshotName backupTarget,
              registerManagedVolume m volumeName info)
        ∧ ReplicaRemove m volumeName replicaName d4 =
            (d4 (ManagedVolume.mk info) replicaName,
              registerManagedVolume m volumeName info)
        ∧ JobList m volumeName d5 =
            (Except.ok (d5 (ManagedVolume.mk info)),
              registerManagedVolume m volumeName info))
    ∧ (dsLookup m.managedVolumes volumeName = none →
        getVolume m.ds volumeName = none →
        GetEngineClient m volumeName d1 =
          (Except.error ("cannot find volume " ++ volumeName), m)
        ∧ SnapshotPurge m volumeName d2 =
            (Except.error ("cannot find volume " ++ volumeName), m)
        ∧ SnapshotBackup m volumeName snapshotName backupTarget d3 =
            (Except.error ("cannot find volume " ++ volumeName), m)
        ∧ ReplicaRemove m volumeName replicaName d4 =
            (Except.error ("cannot find volume " ++ volumeName), m)
        ∧ JobList m volumeName d5 =
            (Except.error ("cannot find volume " ++ volumeName), m)) := by
  cases hc : dsLookup m.managedVolumes volumeName with
  | some mv0 =>
      have hg : getManagedVolume m volumeName false = (Except.ok mv0, m) := by
        simp [getManagedVolume, hc]
      refine ⟨?_, ?_, ?_, ?_⟩
      · exact ⟨by simp [GetEngineClient, hg], by simp [SnapshotPurge, hg],
          by simp [SnapshotBackup, hg], by simp [ReplicaRemove, hg],
          by simp [JobList, hg]⟩
      · intro mv hsome
        injection hsome with h
        subst h
        exact ⟨by simp [GetEngineClient, hg], by simp [SnapshotPurge, hg],
          by simp [SnapshotBackup, hg], by simp [ReplicaRemove, hg],
          by simp [JobList, hg]⟩
      · intro info hnone
        exact absurd hnone (by simp)
      · intro hnone
        exact absurd hnone (by simp)
  | none =>
      cases hv : getVolume m.ds volumeName with
      | some info0 =>
          have hg : getManagedVolume m volumeName false =
              (Except.ok (ManagedVolume.mk info0),
                registerManagedVolume m volumeName info0) := by
            simp [getManagedVolume, hc, hv]
          refine ⟨?_, ?_, ?_, ?_⟩
          · exact ⟨by simp [GetEngineClient, hg, registerManagedVolume],
              by simp [SnapshotPurge, hg, registerManagedVolume],
              by simp [SnapshotBackup, hg, registerManagedVolume],
              by simp [ReplicaRemove, hg, registerManagedVolume],
              by simp [JobList, hg, registerManagedVolume]⟩
          · intro mv hsome
            exact absurd hsome (by simp)
          · intro info _ hsome
            injection hsome with h
            subst h
            exact ⟨by simp [GetEngineClient, hg], by simp [SnapshotPurge, hg],
              by simp [SnapshotBackup, hg], by simp [ReplicaRemove, hg],
              by simp [JobList, hg]⟩
          · intro _ hnone
            exact absurd hnone (by simp)
      | none =>
          have hg : getManagedVolume m volumeName false =
              (Except.error ("cannot find volume " ++ volumeName), m) := by
            simp [getManagedVolume, hc, hv]
          refine ⟨?_, ?_, ?_, ?_⟩
          · exact ⟨by simp [GetEngineClient, hg], by simp [SnapshotPurge, hg],
              by simp [SnapshotBackup, hg], by simp [ReplicaRemove, hg],
              by simp [JobList, hg]⟩
          · intro mv hsome
            exact absurd hsome (by simp)
          · intro info _ hsome
            exact absurd hsome (by simp)
          · intro _ _
            exact ⟨by simp [GetEngineClient, hg], by simp [SnapshotPurge, hg],
              by simp [SnapshotBackup, hg], by simp [ReplicaRemove, hg],
              by simp [JobList, hg]⟩

/-- The manager state used by the C5 witness: the sample store with an
empty ManagedVolume cache. -/
def emptyCacheMgr : MgrState := { ds := sampleStore, managedVolumes := [] }

/-- Witness for C5: dispatching SnapshotPurge for v1 against an empty
cache lazily constructs and registers the ManagedVolume for v1, delegates
to it, and leaves the datastore untouched. -/
theorem dispatch_resolves_through_cache_witness :
    SnapshotPurge emptyCacheMgr "v1" (fun _ => Except.ok ()) =
      (Except.ok (), registerManagedVolume emptyCacheMgr "v1" sampleVolume)
    ∧ (SnapshotPurge emptyCacheMgr "v1" (fun _ => Except.ok ())).2.ds =
        sampleStore := by
  have h := dispatch_resolves_through_cache emptyCacheMgr "v1" "s1" "target"
    "r1" (fun _ => Except.ok { url := "u" }) (fun _ => Except.ok ())
    (fun _ _ _ => Except.ok ()) (fun _ _ => Except.ok ()) (fun _ => [])
  have hlazy := h.2.2.1 sampleVolume (by decide) (by decide)
  exact ⟨hlazy.2.1, by rw [hlazy.2.1]; rfl⟩

end LonghornManager
